import Mathlib

/-!
Shallow embedding of the schema / value marshaling layer of the
wasmedge-vdb client library (src/common.rs, src/schema.rs, src/error.rs,
src/my_error.rs, src/utils.rs, src/client.rs, src/my_client.rs), together
with theorems settling the specification claims about it.

Machine integers are modelled as Nat/Int; the `as u32` casts in the source
appear as explicit reductions modulo 2^32, and the `i64 as usize` cast as a
reduction modulo 2^64.  Rust panics (`unimplemented!`, `Option::unwrap` on
`None`, division by zero) are modelled with an explicit `Except RustPanic`
error layer.  Floating-point payloads are carried opaquely (the code never
computes with them, it only moves them), so `f32`/`f64` values are modelled
as opaque bit containers.
-/

namespace Vdb

/-- Opaque model of a Rust `f32` value: the marshaling layer only moves
float values around, never computes with them, so only identity of the
carried value matters. -/
structure F32 where
  bits : Nat
deriving DecidableEq, Repr

/-- Opaque model of a Rust `f64` value, as for `F32`. -/
structure F64 where
  bits : Nat
deriving DecidableEq, Repr

/-- Modulus of Rust's `u32` type: casts `as u32` in the source reduce by this. -/
def u32Mod : Nat := 2 ^ 32

/-- Model of the Rust cast `(x : i64) as usize` on a 64-bit target:
two's-complement reinterpretation, i.e. reduction modulo 2^64. -/
def usizeOfI64 (x : Int) : Nat := (x % (2 : Int) ^ 64).toNat

/-- A Rust panic reached by the embedded code. -/
inductive RustPanic where
  /-- reached an `unimplemented!()` expression -/
  | unimplemented
  /-- called `Option::unwrap` on a `None` value -/
  | unwrapNone
  /-- integer division or remainder by zero -/
  | divisionByZero
deriving DecidableEq, Repr

/-- Maps a panicking element conversion over a list, stopping at the first
panic: embedding of `into_iter().map(|x| x.into()).collect()` where the
element conversion may panic. -/
def mapPanic {α β : Type} (f : α → Except RustPanic β) : List α → Except RustPanic (List β)
  | [] => Except.ok []
  | x :: xs =>
    match f x with
    | Except.error e => Except.error e
    | Except.ok y =>
      match mapPanic f xs with
      | Except.error e => Except.error e
      | Except.ok ys => Except.ok (y :: ys)

/-- The `DataType` enumeration of src/common.rs (also mirroring the external
proto `DataType` used in src/schema.rs, which has the same variants and
numeric codes). -/
inductive DataType where
  | none
  | bool
  | int8
  | int16
  | int32
  | int64
  | float
  | double
  | string
  | varChar
  | binaryVector
  | floatVector
deriving DecidableEq, Repr

/-- The numeric wire code of each `DataType` variant, as declared by the
`#[repr(i32)]` discriminants in src/common.rs. -/
def DataType.toCode : DataType → Int
  | DataType.none => 0
  | DataType.bool => 1
  | DataType.int8 => 2
  | DataType.int16 => 3
  | DataType.int32 => 4
  | DataType.int64 => 5
  | DataType.float => 10
  | DataType.double => 11
  | DataType.string => 20
  | DataType.varChar => 21
  | DataType.binaryVector => 100
  | DataType.floatVector => 101

/-- `DataType::from_i32` as produced by the `FromPrimitive` derive in
src/common.rs: recognizes exactly the declared discriminants. -/
def DataType.fromI32 (code : Int) : Option DataType :=
  if code = 0 then some DataType.none
  else if code = 1 then some DataType.bool
  else if code = 2 then some DataType.int8
  else if code = 3 then some DataType.int16
  else if code = 4 then some DataType.int32
  else if code = 5 then some DataType.int64
  else if code = 10 then some DataType.float
  else if code = 11 then some DataType.double
  else if code = 20 then some DataType.string
  else if code = 21 then some DataType.varChar
  else if code = 100 then some DataType.binaryVector
  else if code = 101 then some DataType.floatVector
  else Option.none

/-- Modelled from the spec: the wire `KeyValuePair` message of the external
protocol (generated proto code, not under src/): a string key/value pair
used for schema type parameters. -/
structure KeyValuePair where
  key : String
  value : String
deriving DecidableEq, Repr

/-- Modelled from the spec: the wire `Status` message of the external
protocol (generated proto code, not under src/): a numeric error code plus
a human-readable reason string. -/
structure ProtoStatus where
  error_code : Int
  reason : String
deriving DecidableEq, Repr

/-- Modelled from the spec: the external protocol's `ErrorCode` enumeration
(generated proto code, not under src/).  The spec treats the code set as
opaque apart from `Success = 0`; a representative set of known non-success
codes is modelled. -/
inductive ErrorCode where
  | success
  | unexpectedError
  | connectFailed
  | permissionDenied
  | collectionNotExists
  | illegalArgument
deriving DecidableEq, Repr

/-- Modelled from the spec: `ErrorCode::from_i32` of the external protocol's
generated code, with `Success = 0` and the modelled known codes. -/
def ErrorCode.fromI32 (code : Int) : Option ErrorCode :=
  if code = 0 then some ErrorCode.success
  else if code = 1 then some ErrorCode.unexpectedError
  else if code = 2 then some ErrorCode.connectFailed
  else if code = 3 then some ErrorCode.permissionDenied
  else if code = 4 then some ErrorCode.collectionNotExists
  else if code = 5 then some ErrorCode.illegalArgument
  else Option.none

/-- Modelled from the spec: proto scalar array wrappers (BoolArray, IntArray,
LongArray, FloatArray, DoubleArray, StringArray, BytesArray of the generated
proto code, not under src/), each a record holding one `data` list. -/
structure BoolArray where
  data : List Bool
deriving DecidableEq, Repr

/-- Modelled from the spec: proto `IntArray` wrapper (see `BoolArray`). -/
structure IntArray where
  data : List Int
deriving DecidableEq, Repr

/-- Modelled from the spec: proto `LongArray` wrapper (see `BoolArray`). -/
structure LongArray where
  data : List Int
deriving DecidableEq, Repr

/-- Modelled from the spec: proto `FloatArray` wrapper (see `BoolArray`). -/
structure FloatArray where
  data : List F32
deriving DecidableEq, Repr

/-- Modelled from the spec: proto `DoubleArray` wrapper (see `BoolArray`). -/
structure DoubleArray where
  data : List F64
deriving DecidableEq, Repr

/-- Modelled from the spec: proto `StringArray` wrapper (see `BoolArray`). -/
structure StringArray where
  data : List String
deriving DecidableEq, Repr

/-- Modelled from the spec: proto `BytesArray` wrapper (see `BoolArray`);
each element is one byte string. -/
structure BytesArray where
  data : List (List Nat)
deriving DecidableEq, Repr

/-- Modelled from the spec: the wire `scalar_field::Data` oneof of the
generated proto code (not under src/). -/
inductive ProtoScalarData where
  | boolData (v : BoolArray)
  | intData (v : IntArray)
  | longData (v : LongArray)
  | floatData (v : FloatArray)
  | doubleData (v : DoubleArray)
  | stringData (v : StringArray)
  | bytesData (v : BytesArray)
deriving DecidableEq, Repr

/-- Modelled from the spec: the wire `ScalarField` message of the generated
proto code (not under src/): an optional scalar data payload. -/
structure ProtoScalarField where
  data : Option ProtoScalarData
deriving DecidableEq, Repr

/-- Modelled from the spec: the wire `vector_field::Data` oneof of the
generated proto code (not under src/): a raw byte buffer for binary
vectors, or a float array. -/
inductive ProtoVectorData where
  | binaryVector (v : List Nat)
  | floatVector (v : FloatArray)
deriving DecidableEq, Repr

/-- Modelled from the spec: the wire `VectorField` message of the generated
proto code (not under src/): a declared dimension plus an optional payload. -/
structure ProtoVectorField where
  dim : Int
  data : Option ProtoVectorData
deriving DecidableEq, Repr

/-- Modelled from the spec: the wire `field_data::Field` oneof of the
generated proto code (not under src/). -/
inductive ProtoField where
  | scalars (f : ProtoScalarField)
  | vectors (f : ProtoVectorField)
deriving DecidableEq, Repr

/-- Modelled from the spec: the wire `FieldData` message of the generated
proto code (not under src/): numeric type code, field name, field id and
optional column payload. -/
structure ProtoFieldData where
  type : Int
  field_name : String
  field_id : Int
  field : Option ProtoField
deriving DecidableEq, Repr

/-- Modelled from the spec: the wire `FieldSchema` message of the generated
proto code (not under src/), as populated and consumed by src/schema.rs. -/
structure ProtoFieldSchema where
  field_id : Int
  name : String
  is_primary_key : Bool
  description : String
  data_type : Int
  type_params : List KeyValuePair
  index_params : List KeyValuePair
  auto_id : Bool
  state : Int
deriving DecidableEq, Repr

/-- Modelled from the spec: the wire `CollectionSchema` message of the
generated proto code (not under src/). -/
structure ProtoCollectionSchema where
  name : String
  description : String
  auto_id : Bool
  fields : List ProtoFieldSchema
deriving DecidableEq, Repr

/-- Modelled from the spec: the wire query-response message of the generated
proto code (not under src/): status, field-data columns and the collection
name, the parts consumed by `Client::query` in src/client.rs. -/
structure ProtoQueryResults where
  status : Option ProtoStatus
  fields_data : List ProtoFieldData
  collection_name : String
deriving DecidableEq, Repr

/-- `ScalarFieldData` of src/common.rs: tagged union of the supported
homogeneous scalar arrays. -/
inductive ScalarFieldData where
  | boolData (v : List Bool)
  | intData (v : List Int)
  | longData (v : List Int)
  | floatData (v : List F32)
  | doubleData (v : List F64)
  | stringData (v : List String)
  | bytesData (v : List (List Nat))
deriving DecidableEq, Repr

/-- `ScalarField` of src/common.rs: an optional scalar column payload. -/
structure ScalarField where
  data : Option ScalarFieldData
deriving DecidableEq, Repr

/-- `ScalarField::num_rows` of src/common.rs: length of the populated array
(cast `as u32` in the source, hence reduced modulo 2^32), or 0 when no
variant is populated. -/
def ScalarField.num_rows (f : ScalarField) : Nat :=
  match f.data with
  | some (ScalarFieldData.boolData data) => data.length % u32Mod
  | some (ScalarFieldData.intData data) => data.length % u32Mod
  | some (ScalarFieldData.longData data) => data.length % u32Mod
  | some (ScalarFieldData.floatData data) => data.length % u32Mod
  | some (ScalarFieldData.doubleData data) => data.length % u32Mod
  | some (ScalarFieldData.stringData data) => data.length % u32Mod
  | some (ScalarFieldData.bytesData data) => data.length % u32Mod
  | Option.none => 0

/-- `ScalarField::dtype` of src/common.rs. -/
def ScalarField.dtype (f : ScalarField) : DataType :=
  match f.data with
  | some (ScalarFieldData.boolData _) => DataType.bool
  | some (ScalarFieldData.intData _) => DataType.int32
  | some (ScalarFieldData.longData _) => DataType.int64
  | some (ScalarFieldData.floatData _) => DataType.float
  | some (ScalarFieldData.doubleData _) => DataType.double
  | some (ScalarFieldData.stringData _) => DataType.string
  | some (ScalarFieldData.bytesData _) => DataType.binaryVector
  | Option.none => DataType.none

/-- `VectorFieldData` of src/common.rs: a flat binary buffer or a flat float
buffer. -/
inductive VectorFieldData where
  | binaryVec (v : List Nat)
  | floatVec (v : List F32)
deriving DecidableEq, Repr

/-- `VectorFieldData::dtype` of src/common.rs. -/
def VectorFieldData.dtype : VectorFieldData → DataType
  | VectorFieldData.binaryVec _ => DataType.binaryVector
  | VectorFieldData.floatVec _ => DataType.floatVector

/-- `VectorField` of src/common.rs: a declared dimension plus an optional
flat payload. -/
structure VectorField where
  dim : Int
  data : Option VectorFieldData
deriving DecidableEq, Repr

/-- `VectorField::num_rows` of src/common.rs.  The source computes
`(data.len() / self.dim as usize) as u32` and adds one (in `u32`
arithmetic) when the length is not a multiple of the dimension; the
division panics when `dim as usize` is zero. -/
def VectorField.num_rows (f : VectorField) : Except RustPanic Nat :=
  match f.data with
  | some (VectorFieldData.binaryVec data) =>
    let d := usizeOfI64 f.dim
    if d = 0 then Except.error RustPanic.divisionByZero
    else
      let c := data.length / d % u32Mod
      if data.length % d = 0 then Except.ok c else Except.ok ((c + 1) % u32Mod)
  | some (VectorFieldData.floatVec data) =>
    let d := usizeOfI64 f.dim
    if d = 0 then Except.error RustPanic.divisionByZero
    else
      let c := data.length / d % u32Mod
      if data.length % d = 0 then Except.ok c else Except.ok ((c + 1) % u32Mod)
  | Option.none => Except.ok 0

/-- `VectorField::dtype` of src/common.rs. -/
def VectorField.dtype (f : VectorField) : DataType :=
  match f.data with
  | some data => data.dtype
  | Option.none => DataType.none

/-- `Field` of src/common.rs: a scalar or a vector column container. -/
inductive Field where
  | scalars (f : ScalarField)
  | vectors (f : VectorField)
deriving DecidableEq, Repr

/-- `FieldData` of src/common.rs: a named, typed, optional column. -/
structure FieldData where
  data_type : DataType
  field_name : String
  field_id : Int
  field : Option Field
deriving DecidableEq, Repr

/-- `From<ScalarFieldData> for proto::schema::scalar_field::Data` of
src/common.rs: wraps each native array into its proto array wrapper. -/
def scalarFieldDataToProto : ScalarFieldData → ProtoScalarData
  | ScalarFieldData.boolData v => ProtoScalarData.boolData { data := v }
  | ScalarFieldData.intData v => ProtoScalarData.intData { data := v }
  | ScalarFieldData.longData v => ProtoScalarData.longData { data := v }
  | ScalarFieldData.floatData v => ProtoScalarData.floatData { data := v }
  | ScalarFieldData.doubleData v => ProtoScalarData.doubleData { data := v }
  | ScalarFieldData.stringData v => ProtoScalarData.stringData { data := v }
  | ScalarFieldData.bytesData v => ProtoScalarData.bytesData { data := v }

/-- `From<proto::schema::scalar_field::Data> for ScalarFieldData` of
src/common.rs: unwraps each proto array wrapper. -/
def protoScalarDataToLocal : ProtoScalarData → ScalarFieldData
  | ProtoScalarData.boolData v => ScalarFieldData.boolData v.data
  | ProtoScalarData.intData v => ScalarFieldData.intData v.data
  | ProtoScalarData.longData v => ScalarFieldData.longData v.data
  | ProtoScalarData.floatData v => ScalarFieldData.floatData v.data
  | ProtoScalarData.doubleData v => ScalarFieldData.doubleData v.data
  | ProtoScalarData.stringData v => ScalarFieldData.stringData v.data
  | ProtoScalarData.bytesData v => ScalarFieldData.bytesData v.data

/-- `From<VectorFieldData> for proto::schema::vector_field::Data` of
src/common.rs. -/
def vectorFieldDataToProto : VectorFieldData → ProtoVectorData
  | VectorFieldData.binaryVec v => ProtoVectorData.binaryVector v
  | VectorFieldData.floatVec v => ProtoVectorData.floatVector { data := v }

/-- `From<proto::schema::vector_field::Data> for VectorFieldData` of
src/common.rs. -/
def protoVectorDataToLocal : ProtoVectorData → VectorFieldData
  | ProtoVectorData.binaryVector v => VectorFieldData.binaryVec v
  | ProtoVectorData.floatVector v => VectorFieldData.floatVec v.data

/-- `From<proto::schema::field_data::Field> for Field` of src/common.rs
(composed with the `ScalarField`/`VectorField` conversions it invokes). -/
def protoFieldToLocal : ProtoField → Field
  | ProtoField.scalars sf => Field.scalars { data := sf.data.map protoScalarDataToLocal }
  | ProtoField.vectors vf =>
    Field.vectors { dim := vf.dim, data := vf.data.map protoVectorDataToLocal }

/-- `From<proto::schema::FieldData> for FieldData` of src/common.rs: the
source calls `DataType::from_i32(field_data.r#type).unwrap()`, which panics
on an unknown numeric type code. -/
def protoFieldDataToLocal (fd : ProtoFieldData) : Except RustPanic FieldData :=
  match DataType.fromI32 fd.type with
  | Option.none => Except.error RustPanic.unwrapNone
  | some dt =>
    Except.ok
      { data_type := dt, field_name := fd.field_name, field_id := fd.field_id,
        field := fd.field.map protoFieldToLocal }

/-- `FieldType` of src/schema.rs.  Payloads: `int64` and `varChar` carry
primary-key and auto-id flags, `varChar` additionally a max length (i32),
the vector variants a dimension (i64). -/
inductive FieldType where
  | none
  | bool
  | int8
  | int16
  | int32
  | int64 (pk : Bool) (autoId : Bool)
  | float
  | double
  | string
  | varChar (maxLength : Int) (pk : Bool) (autoId : Bool)
  | binaryVector (dim : Int)
  | floatVector (dim : Int)
deriving DecidableEq, Repr

/-- `From<FieldType> for DataType` of src/schema.rs. -/
def FieldType.toDataType : FieldType → DataType
  | FieldType.none => DataType.none
  | FieldType.bool => DataType.bool
  | FieldType.int8 => DataType.int8
  | FieldType.int16 => DataType.int16
  | FieldType.int32 => DataType.int32
  | FieldType.int64 _ _ => DataType.int64
  | FieldType.float => DataType.float
  | FieldType.double => DataType.double
  | FieldType.string => DataType.string
  | FieldType.varChar _ _ _ => DataType.varChar
  | FieldType.binaryVector _ => DataType.binaryVector
  | FieldType.floatVector _ => DataType.floatVector

/-- `FieldSchema` of src/schema.rs: a named, described, typed field. -/
structure FieldSchema where
  name : String
  desc : String
  ty : FieldType
deriving DecidableEq, Repr

/-- `FieldSchema::new` of src/schema.rs. -/
def FieldSchema.new (name : String) (ty : FieldType) (description : Option String) :
    FieldSchema :=
  let desc := match description with
    | some d => d
    | Option.none => ""
  { name := name, desc := desc, ty := ty }

/-- `FieldSchema::is_primary` of src/schema.rs: true exactly for `Int64` and
`VarChar` fields whose primary-key flag is set. -/
def FieldSchema.is_primary (f : FieldSchema) : Bool :=
  match f.ty with
  | FieldType.int64 pk _ => pk
  | FieldType.varChar _ pk _ => pk
  | _ => false

/-- `SchemaError` of src/schema.rs (the same enumeration appears in
src/error.rs). -/
inductive SchemaError where
  | duplicatePrimaryKey (a b : String)
  | noPrimaryKey
  | unsupportedPrimaryKey (t : DataType)
  | unsupportedAutoId (t : DataType)
  | dimensionMismatch (f : String) (expected got : Int)
  | fieldWrongType (f : String) (expected got : DataType)
  | fieldDoesNotExists (f : String)
  | noSuchKey (k : String)
  | notVectorField (f : String)
deriving DecidableEq, Repr

/-- `Error` of src/my_error.rs (src/error.rs declares the identical
enumeration).  Transport/serde payloads are carried as message strings. -/
inductive Error where
  | communication (msg : String)
  | grpc (msg : String)
  | schema (e : SchemaError)
  | server (code : ErrorCode) (reason : String)
  | prostEncode (msg : String)
  | prostDecode (msg : String)
  | conversion
  | serdeJsonErr (msg : String)
  | invalidParameter (name value : String)
  | unexpected (msg : String)
deriving DecidableEq, Repr

/-- `CollectionSchema` of src/schema.rs. -/
structure CollectionSchema where
  name : String
  description : String
  fields : List FieldSchema
deriving DecidableEq, Repr

/-- `CollectionSchema::new` of src/schema.rs: scans the fields for a primary
key (the source loop breaks at the first one found, i.e. computes `any`),
fails with `SchemaError::NoPrimaryKey` when none is found, and otherwise
builds the schema.  The per-field `x.into()` on the success path is the
identity conversion `FieldSchema -> FieldSchema`, and a missing description
defaults to the empty string. -/
def CollectionSchema.new (name : String) (fields : List FieldSchema)
    (description : Option String) : Except Error CollectionSchema :=
  let has_primary := fields.any (fun f => f.is_primary)
  if !has_primary then
    Except.error (Error.schema SchemaError.noPrimaryKey)
  else
    Except.ok { name := name, description := description.getD "", fields := fields }

/-- The `field_id: unimplemented!()` expression of
`From<FieldSchema> for proto FieldSchema` in src/schema.rs. -/
def fieldIdValue : Except RustPanic Int := Except.error RustPanic.unimplemented

/-- `From<FieldSchema> for milvus::proto::schema::FieldSchema` of
src/schema.rs: computes the primary-key/auto-id flags and type parameters
from the field type, then builds the wire record — whose `field_id` is
`unimplemented!()`, so the construction panics. -/
def fieldSchemaToProto (field : FieldSchema) : Except RustPanic ProtoFieldSchema :=
  let pkAutoParams : Bool × Bool × List KeyValuePair :=
    match field.ty with
    | FieldType.int64 pk auto => (pk, auto, [])
    | FieldType.varChar maxLength pk auto =>
      (pk, auto, [{ key := "max_length", value := toString maxLength }])
    | FieldType.binaryVector dimension =>
      (false, false, [{ key := "dim", value := toString dimension }])
    | FieldType.floatVector dimension =>
      (false, false, [{ key := "dim", value := toString dimension }])
    | _ => (false, false, [])
  let data_type := field.ty.toDataType
  match fieldIdValue with
  | Except.error e => Except.error e
  | Except.ok fid =>
    Except.ok
      { field_id := fid, name := field.name, is_primary_key := pkAutoParams.1,
        description := field.desc, data_type := data_type.toCode,
        type_params := pkAutoParams.2.2, index_params := [],
        auto_id := pkAutoParams.2.1, state := 0 }

/-- `From<CollectionSchema> for milvus::proto::schema::CollectionSchema` of
src/schema.rs: converts every field (each conversion may panic) and builds
the wire record with `auto_id = false`. -/
def collectionSchemaToProto (schema : CollectionSchema) :
    Except RustPanic ProtoCollectionSchema :=
  match mapPanic fieldSchemaToProto schema.fields with
  | Except.error e => Except.error e
  | Except.ok fields =>
    Except.ok
      { name := schema.name, description := schema.description, auto_id := false,
        fields := fields }

/-- Model of Rust `str::parse::<i32>().ok()`: decimal integer parsing
restricted to the i32 range. -/
def parseI32 (s : String) : Option Int :=
  match s.toInt? with
  | some n => if -(2 ^ 31) ≤ n ∧ n < 2 ^ 31 then some n else Option.none
  | Option.none => Option.none

/-- Model of Rust `str::parse::<i64>().ok()`: decimal integer parsing
restricted to the i64 range. -/
def parseI64 (s : String) : Option Int :=
  match s.toInt? with
  | some n => if -(2 ^ 63) ≤ n ∧ n < 2 ^ 63 then some n else Option.none
  | Option.none => Option.none

/-- The `type_params.iter().find(|kv| kv.key == key).and_then(|kv|
kv.value.parse().ok())` pattern of src/schema.rs, for an i32 parameter. -/
def findParseI32 (params : List KeyValuePair) (key : String) : Option Int :=
  match params.find? (fun kv => kv.key == key) with
  | some kv => parseI32 kv.value
  | Option.none => Option.none

/-- As `findParseI32`, for an i64 parameter (the vector dimension). -/
def findParseI64 (params : List KeyValuePair) (key : String) : Option Int :=
  match params.find? (fun kv => kv.key == key) with
  | some kv => parseI64 kv.value
  | Option.none => Option.none

/-- `From<milvus::proto::schema::FieldSchema> for FieldSchema` of
src/schema.rs: `DataType::from_i32(..).unwrap()` panics on an unknown type
code, and the `VarChar`/`BinaryVector`/`FloatVector` branches panic
(`unwrap` on `None`) when the required type parameter is absent or does not
parse. -/
def protoFieldSchemaToLocal (field : ProtoFieldSchema) : Except RustPanic FieldSchema :=
  match DataType.fromI32 field.data_type with
  | Option.none => Except.error RustPanic.unwrapNone
  | some data_type =>
    let tyE : Except RustPanic FieldType :=
      match data_type with
      | DataType.none => Except.ok FieldType.none
      | DataType.bool => Except.ok FieldType.bool
      | DataType.int8 => Except.ok FieldType.int8
      | DataType.int16 => Except.ok FieldType.int16
      | DataType.int32 => Except.ok FieldType.int32
      | DataType.int64 => Except.ok (FieldType.int64 field.is_primary_key field.auto_id)
      | DataType.float => Except.ok FieldType.float
      | DataType.double => Except.ok FieldType.double
      | DataType.string => Except.ok FieldType.string
      | DataType.varChar =>
        match findParseI32 field.type_params "max_length" with
        | some ml => Except.ok (FieldType.varChar ml field.is_primary_key field.auto_id)
        | Option.none => Except.error RustPanic.unwrapNone
      | DataType.binaryVector =>
        match findParseI64 field.type_params "dim" with
        | some d => Except.ok (FieldType.binaryVector d)
        | Option.none => Except.error RustPanic.unwrapNone
      | DataType.floatVector =>
        match findParseI64 field.type_params "dim" with
        | some d => Except.ok (FieldType.floatVector d)
        | Option.none => Except.error RustPanic.unwrapNone
    match tyE with
    | Except.error e => Except.error e
    | Except.ok ty => Except.ok { name := field.name, desc := field.description, ty := ty }

/-- `status_to_result` of src/utils.rs: absent status is `Unexpected("no
status")`; a known `Success` code is `Ok(())`; any other known code becomes
`Error::Server(code, reason)` (via `From<Status> for Error` of
src/error.rs); an unknown code is `Unexpected("unknown error code ..")`. -/
def status_to_result (status : Option ProtoStatus) : Except Error Unit :=
  match status with
  | Option.none => Except.error (Error.unexpected "no status")
  | some s =>
    match ErrorCode.fromI32 s.error_code with
    | some ErrorCode.success => Except.ok ()
    | some code => Except.error (Error.server code s.reason)
    | Option.none =>
      Except.error (Error.unexpected ("unknown error code " ++ toString s.error_code))

/-- `QueryResult` of src/common.rs. -/
structure QueryResult where
  fields_data : List FieldData
  collection_name : String
deriving DecidableEq, Repr

/-- The response-processing tail of `Client::query` in src/client.rs:
checks the status with `status_to_result`, then converts every wire
field-data column (each conversion may panic on an unknown type code) and
assembles the `QueryResult`, keeping the columns in response order. -/
def query_collect (response : ProtoQueryResults) : Except RustPanic (Except Error QueryResult) :=
  match status_to_result response.status with
  | Except.error e => Except.ok (Except.error e)
  | Except.ok _ =>
    match mapPanic protoFieldDataToLocal response.fields_data with
    | Except.error e => Except.error e
    | Except.ok fds =>
      Except.ok (Except.ok
        { fields_data := fds, collection_name := response.collection_name })

/-- Model of `std::time::Duration` as a nanosecond count. -/
structure Duration where
  nanos : Nat
deriving DecidableEq, Repr

/-- `Duration::from_secs`. -/
def Duration.fromSecs (s : Nat) : Duration := { nanos := s * 1000000000 }

/-- The endpoint configuration assembled by `Client::new` (identical in
src/client.rs and src/my_client.rs): the url string and the connection
timeout installed on the endpoint.  Credential encoding and the actual
connection are transport side effects outside this embedding. -/
structure EndpointConfig where
  url : String
  timeout : Duration
deriving DecidableEq, Repr

/-- The pure configuration prefix of `Client::new` of src/client.rs and
src/my_client.rs: formats the url and selects the timeout, defaulting to
`Duration::from_secs(10)` when none is supplied. -/
def clientEndpointConfig (host : String) (port : Nat) (timeout : Option Duration) :
    EndpointConfig :=
  let t := match timeout with
    | some t => t
    | Option.none => Duration.fromSecs 10
  { url := host ++ ":" ++ toString port, timeout := t }

/-- Ceiling division on naturals: the least n with a ≤ n * b, for b > 0. -/
def ceilDiv (a b : Nat) : Nat := (a + b - 1) / b

/-- Element count of a populated scalar column, following the spec's words
("scalar = direct length"), for comparison with `ScalarField.num_rows`. -/
def scalarElementCount : ScalarFieldData → Nat
  | ScalarFieldData.boolData v => v.length
  | ScalarFieldData.intData v => v.length
  | ScalarFieldData.longData v => v.length
  | ScalarFieldData.floatData v => v.length
  | ScalarFieldData.doubleData v => v.length
  | ScalarFieldData.stringData v => v.length
  | ScalarFieldData.bytesData v => v.length

/-! Helper lemmas. -/

/-- Ceiling division agrees with the rounding-up pattern of the source:
quotient, plus one exactly when the remainder is nonzero. -/
lemma ceilDiv_eq (a b : Nat) (hb : 0 < b) :
    ceilDiv a b = a / b + if a % b = 0 then 0 else 1 := by
  unfold ceilDiv
  have h0 : a + b - 1 = a + (b - 1) := by omega
  rw [h0, Nat.add_div hb, Nat.mod_eq_of_lt (show b - 1 < b by omega),
    Nat.div_eq_of_lt (show b - 1 < b by omega)]
  have hm : a % b < b := Nat.mod_lt _ hb
  by_cases h : a % b = 0
  · rw [if_pos h, h, if_neg (by omega)]
  · rw [if_neg h, if_pos (by omega)]

/-- The cast `i64 as usize` is the identity on dimensions in the positive
i64 range. -/
lemma usizeOfI64_of_pos (x : Int) (h1 : 0 < x) (h2 : x < 2 ^ 63) :
    usizeOfI64 x = x.toNat := by
  unfold usizeOfI64
  rw [Int.emod_eq_of_lt (by omega) (by omega)]

/-- The per-field wire conversion always reaches the `unimplemented!()`
field id. -/
lemma fieldSchemaToProto_err (f : FieldSchema) :
    fieldSchemaToProto f = Except.error RustPanic.unimplemented := rfl

/-- A successful panicking map preserves the list length. -/
lemma mapPanic_ok_length {α β : Type} (f : α → Except RustPanic β) :
    ∀ (xs : List α) (ys : List β), mapPanic f xs = Except.ok ys → ys.length = xs.length := by
  intro xs
  induction xs with
  | nil =>
    intro ys h
    unfold mapPanic at h
    injection h with h2
    subst h2
    rfl
  | cons x xs ih =>
    intro ys h
    unfold mapPanic at h
    cases hfx : f x with
    | error e => rw [hfx] at h; exact Except.noConfusion h
    | ok y =>
      rw [hfx] at h
      cases hmx : mapPanic f xs with
      | error e => rw [hmx] at h; exact Except.noConfusion h
      | ok ys2 =>
        rw [hmx] at h
        injection h with h2
        subst h2
        simp [ih ys2 hmx]

/-- A successful panicking map converts elementwise, in order. -/
lemma mapPanic_ok_get {α β : Type} (f : α → Except RustPanic β) :
    ∀ (xs : List α) (ys : List β), mapPanic f xs = Except.ok ys →
      ∀ (i : Nat) (hx : i < xs.length) (hy : i < ys.length),
        f (xs.get ⟨i, hx⟩) = Except.ok (ys.get ⟨i, hy⟩) := by
  intro xs
  induction xs with
  | nil => intro ys h i hx hy; exact absurd hx (by simp)
  | cons x xs ih =>
    intro ys h i hx hy
    unfold mapPanic at h
    cases hfx : f x with
    | error e => rw [hfx] at h; exact Except.noConfusion h
    | ok y =>
      rw [hfx] at h
      cases hmx : mapPanic f xs with
      | error e => rw [hmx] at h; exact Except.noConfusion h
      | ok ys2 =>
        rw [hmx] at h
        injection h with h2
        subst h2
        cases i with
        | zero => exact hfx
        | succ j =>
          exact ih ys2 hmx j (Nat.lt_of_succ_lt_succ hx) (Nat.lt_of_succ_lt_succ hy)

/-- The wire field-data conversion keeps the field name when it succeeds. -/
lemma protoFieldDataToLocal_name (fd : ProtoFieldData) (l : FieldData) :
    protoFieldDataToLocal fd = Except.ok l → l.field_name = fd.field_name := by
  intro h
  unfold protoFieldDataToLocal at h
  cases hdt : DataType.fromI32 fd.type with
  | none => rw [hdt] at h; exact Except.noConfusion h
  | some dt =>
    rw [hdt] at h
    injection h with h2
    subst h2
    rfl

/-- An error-code value decodes to `Success` exactly for the numeric code 0. -/
lemma errorCode_success_iff (c : Int) :
    ErrorCode.fromI32 c = some ErrorCode.success ↔ c = 0 := by
  unfold ErrorCode.fromI32
  split_ifs <;> simp_all

/-- Row count of a populated bool scalar column, on a generic list. -/
lemma scalar_num_rows_bool (v : List Bool) :
    ScalarField.num_rows { data := some (ScalarFieldData.boolData v) } = v.length % u32Mod :=
  rfl

/-! Claim theorems. -/

/-- Claim C5: the numeric wire type codes of the DataType enumeration are
exactly None=0, Bool=1, Int8=2, Int16=3, Int32=4, Int64=5, Float=10,
Double=11, String=20, VarChar=21, BinaryVector=100, FloatVector=101. -/
theorem dataType_wire_codes :
    DataType.toCode DataType.none = 0 ∧
    DataType.toCode DataType.bool = 1 ∧
    DataType.toCode DataType.int8 = 2 ∧
    DataType.toCode DataType.int16 = 3 ∧
    DataType.toCode DataType.int32 = 4 ∧
    DataType.toCode DataType.int64 = 5 ∧
    DataType.toCode DataType.float = 10 ∧
    DataType.toCode DataType.double = 11 ∧
    DataType.toCode DataType.string = 20 ∧
    DataType.toCode DataType.varChar = 21 ∧
    DataType.toCode DataType.binaryVector = 100 ∧
    DataType.toCode DataType.floatVector = 101 := by
  decide

/-- Claim C8: dtype() on a column container returns the DataType tag
matching the populated variant (Bool for a bool array, Int32 for i32,
Int64 for i64, Float for f32, Double for f64, String for strings,
BinaryVector for a bytes array, BinaryVector/FloatVector for vector
payloads), and the None type when no variant is populated. -/
theorem dtype_matches_populated_variant :
    (∀ v, ScalarField.dtype { data := some (ScalarFieldData.boolData v) } = DataType.bool) ∧
    (∀ v, ScalarField.dtype { data := some (ScalarFieldData.intData v) } = DataType.int32) ∧
    (∀ v, ScalarField.dtype { data := some (ScalarFieldData.longData v) } = DataType.int64) ∧
    (∀ v, ScalarField.dtype { data := some (ScalarFieldData.floatData v) } = DataType.float) ∧
    (∀ v, ScalarField.dtype { data := some (ScalarFieldData.doubleData v) } = DataType.double) ∧
    (∀ v, ScalarField.dtype { data := some (ScalarFieldData.stringData v) } = DataType.string) ∧
    (∀ v,
      ScalarField.dtype { data := some (ScalarFieldData.bytesData v) } = DataType.binaryVector) ∧
    ScalarField.dtype { data := Option.none } = DataType.none ∧
    (∀ dim v,
      VectorField.dtype { dim := dim, data := some (VectorFieldData.binaryVec v) }
        = DataType.binaryVector) ∧
    (∀ dim v,
      VectorField.dtype { dim := dim, data := some (VectorFieldData.floatVec v) }
        = DataType.floatVector) ∧
    (∀ dim, VectorField.dtype { dim := dim, data := Option.none } = DataType.none) :=
  ⟨fun _ => rfl, fun _ => rfl, fun _ => rfl, fun _ => rfl, fun _ => rfl, fun _ => rfl,
   fun _ => rfl, rfl, fun _ _ => rfl, fun _ _ => rfl, fun _ => rfl⟩

/-- Claim C4: converting a native column value to the wire representation
and back is the identity, on every scalar array variant and every vector
payload variant. -/
theorem wire_roundtrip_identity :
    (∀ d : ScalarFieldData, protoScalarDataToLocal (scalarFieldDataToProto d) = d) ∧
    (∀ v : VectorFieldData, protoVectorDataToLocal (vectorFieldDataToProto v) = v) := by
  constructor
  · intro d; cases d <;> rfl
  · intro v; cases v <;> rfl

/-- Claim C10: Client::new with no timeout argument configures the
connection with a fixed 10-second timeout; with a supplied duration, that
duration is used instead. -/
theorem client_new_timeout :
    (∀ (host : String) (port : Nat),
        (clientEndpointConfig host port Option.none).timeout = Duration.fromSecs 10) ∧
    (∀ (host : String) (port : Nat) (d : Duration),
        (clientEndpointConfig host port (some d)).timeout = d) :=
  ⟨fun _ _ => rfl, fun _ _ _ => rfl⟩

/-- Claim C1, counterexample: a field list with two primary-key fields (an
Int64 primary key and a VarChar primary key, the spec's own scenario) is
accepted by CollectionSchema::new, while the claim demands failure with
SchemaError::DuplicatePrimaryKey. -/
theorem collectionSchema_new_two_primaries_succeeds :
    FieldSchema.is_primary (FieldSchema.new "id" (FieldType.int64 true true) Option.none)
      = true ∧
    FieldSchema.is_primary
        (FieldSchema.new "name" (FieldType.varChar 200 true false) Option.none) = true ∧
    (CollectionSchema.new "c"
        [FieldSchema.new "id" (FieldType.int64 true true) Option.none,
         FieldSchema.new "name" (FieldType.varChar 200 true false) Option.none]
        Option.none).isOk = true :=
  ⟨rfl, rfl, rfl⟩

/-- Claim C1 (amended): CollectionSchema::new fails with
SchemaError::NoPrimaryKey when zero fields are marked primary key, and
succeeds whenever at least one field is marked primary key — including
when two or more are; no DuplicatePrimaryKey check is performed. -/
theorem collectionSchema_new_primary_spec :
    ∀ (name : String) (fields : List FieldSchema) (description : Option String),
      (fields.any (fun f => f.is_primary) = false →
        CollectionSchema.new name fields description
          = Except.error (Error.schema SchemaError.noPrimaryKey)) ∧
      (fields.any (fun f => f.is_primary) = true →
        CollectionSchema.new name fields description
          = Except.ok
              { name := name, description := description.getD "", fields := fields }) := by
  intro name fields description
  constructor <;> intro h <;> simp [CollectionSchema.new, h]

/-- Claim C1 witness: the amended statement at concrete inputs — an empty
field list is rejected with NoPrimaryKey, and a two-primary-key list is
accepted. -/
theorem collectionSchema_new_primary_spec_witness :
    (CollectionSchema.new "c" [] Option.none
        = Except.error (Error.schema SchemaError.noPrimaryKey)) ∧
    (CollectionSchema.new "c"
        [FieldSchema.new "id" (FieldType.int64 true false) Option.none,
         FieldSchema.new "name" (FieldType.varChar 200 true false) Option.none]
        Option.none
      = Except.ok
          { name := "c", description := "",
            fields :=
              [FieldSchema.new "id" (FieldType.int64 true false) Option.none,
               FieldSchema.new "name" (FieldType.varChar 200 true false) Option.none] }) :=
  ⟨(collectionSchema_new_primary_spec "c" [] Option.none).1 rfl,
   (collectionSchema_new_primary_spec "c"
      [FieldSchema.new "id" (FieldType.int64 true false) Option.none,
       FieldSchema.new "name" (FieldType.varChar 200 true false) Option.none]
      Option.none).2 rfl⟩

/-- Claim C3: for every FieldSchema, the wire conversion panics (its
field_id is unimplemented), and hence converting any successfully built
CollectionSchema — which necessarily has at least one field — also panics. -/
theorem fieldSchema_wire_conversion_always_panics :
    (∀ f : FieldSchema, fieldSchemaToProto f = Except.error RustPanic.unimplemented) ∧
    (∀ (name : String) (fields : List FieldSchema) (description : Option String)
        (c : CollectionSchema),
      CollectionSchema.new name fields description = Except.ok c →
      collectionSchemaToProto c = Except.error RustPanic.unimplemented) := by
  refine ⟨fun f => fieldSchemaToProto_err f, ?_⟩
  intro name fields description c h
  unfold CollectionSchema.new at h
  cases hAny : fields.any (fun f => f.is_primary) with
  | false => rw [hAny] at h; simp at h
  | true =>
    rw [hAny] at h
    simp at h
    cases fields with
    | nil => simp at hAny
    | cons a as =>
      rw [← h]
      simp [collectionSchemaToProto, mapPanic, fieldSchemaToProto_err]

/-- Claim C3 witness: a concretely built one-field collection schema whose
wire conversion panics. -/
theorem fieldSchema_wire_conversion_always_panics_witness :
    collectionSchemaToProto
        { name := "c", description := "",
          fields := [FieldSchema.new "pk" (FieldType.int64 true false) Option.none] }
      = Except.error RustPanic.unimplemented :=
  fieldSchema_wire_conversion_always_panics.2 "c"
    [FieldSchema.new "pk" (FieldType.int64 true false) Option.none] Option.none
    { name := "c", description := "",
      fields := [FieldSchema.new "pk" (FieldType.int64 true false) Option.none] } rfl

/-- Claim C2, counterexample: num_rows is computed in u32 arithmetic, so a
populated bool scalar column with 2^32 elements reports 0 rows, not its
element count. -/
theorem num_rows_truncation_counterexample :
    ScalarField.num_rows
        { data := some (ScalarFieldData.boolData (List.replicate (2 ^ 32) true)) } = 0 ∧
    (List.replicate (2 ^ 32) true).length = 2 ^ 32 ∧
    (0 : Nat) ≠ 2 ^ 32 := by
  refine ⟨?_, List.length_replicate _ _, by norm_num⟩
  rw [scalar_num_rows_bool, List.length_replicate]
  exact Nat.mod_self _

/-- Claim C2 (amended): num_rows returns the element count reduced modulo
2^32 for populated scalar variants (hence the exact count whenever it is
below 2^32), and for vector variants with declared dimension d, 0 < d <
2^63, and flat buffer length L it returns ceil(L / d) modulo 2^32; in
particular d=128, L=256 gives 2 and d=128, L=130 gives 2. -/
theorem num_rows_spec :
    (∀ d : ScalarFieldData,
        ScalarField.num_rows { data := some d } = scalarElementCount d % u32Mod) ∧
    (∀ (dim : Int) (data : List Nat), 0 < dim → dim < 2 ^ 63 →
        VectorField.num_rows { dim := dim, data := some (VectorFieldData.binaryVec data) }
          = Except.ok (ceilDiv data.length dim.toNat % u32Mod)) ∧
    (∀ (dim : Int) (data : List F32), 0 < dim → dim < 2 ^ 63 →
        VectorField.num_rows { dim := dim, data := some (VectorFieldData.floatVec data) }
          = Except.ok (ceilDiv data.length dim.toNat % u32Mod)) ∧
    VectorField.num_rows
        { dim := 128, data := some (VectorFieldData.binaryVec (List.replicate 256 0)) }
      = Except.ok 2 ∧
    VectorField.num_rows
        { dim := 128, data := some (VectorFieldData.floatVec (List.replicate 130 { bits := 0 })) }
      = Except.ok 2 := by
  have hbin : ∀ (dim : Int) (data : List Nat), 0 < dim → dim < 2 ^ 63 →
      VectorField.num_rows { dim := dim, data := some (VectorFieldData.binaryVec data) }
        = Except.ok (ceilDiv data.length dim.toNat % u32Mod) := by
    intro dim data h1 h2
    have hd : 0 < dim.toNat := by omega
    simp only [VectorField.num_rows, usizeOfI64_of_pos dim h1 h2]
    rw [if_neg (by omega)]
    rw [ceilDiv_eq data.length dim.toNat hd]
    by_cases hmod : data.length % dim.toNat = 0
    · rw [if_pos hmod, if_pos hmod, Nat.add_zero]
    · rw [if_neg hmod, if_neg hmod, Nat.mod_add_mod]
  have hflo : ∀ (dim : Int) (data : List F32), 0 < dim → dim < 2 ^ 63 →
      VectorField.num_rows { dim := dim, data := some (VectorFieldData.floatVec data) }
        = Except.ok (ceilDiv data.length dim.toNat % u32Mod) := by
    intro dim data h1 h2
    have hd : 0 < dim.toNat := by omega
    simp only [VectorField.num_rows, usizeOfI64_of_pos dim h1 h2]
    rw [if_neg (by omega)]
    rw [ceilDiv_eq data.length dim.toNat hd]
    by_cases hmod : data.length % dim.toNat = 0
    · rw [if_pos hmod, if_pos hmod, Nat.add_zero]
    · rw [if_neg hmod, if_neg hmod, Nat.mod_add_mod]
  refine ⟨?_, hbin, hflo, ?_, ?_⟩
  · intro d; cases d <;> rfl
  · rw [hbin 128 (List.replicate 256 0) (by norm_num) (by norm_num)]
    rw [List.length_replicate]
    norm_num [ceilDiv, u32Mod]
    decide
  · rw [hflo 128 (List.replicate 130 { bits := 0 }) (by norm_num) (by norm_num)]
    rw [List.length_replicate]
    norm_num [ceilDiv, u32Mod]
    decide

/-- Claim C2 witness: the amended statement at a concrete input — a
128-dimensional binary vector column over a 130-byte buffer. -/
theorem num_rows_spec_witness :
    (0 : Int) < 128 ∧ (128 : Int) < 2 ^ 63 ∧
    VectorField.num_rows
        { dim := 128, data := some (VectorFieldData.binaryVec (List.replicate 130 0)) }
      = Except.ok (ceilDiv (List.replicate (130 : Nat) (0 : Nat)).length (Int.toNat 128)
          % u32Mod) :=
  ⟨by decide, by decide, num_rows_spec.2.1 128 (List.replicate 130 0) (by decide) (by decide)⟩

/-- Claim C6: status_to_result returns Ok(()) iff the status is present
with the Success code; a known non-success code yields a Server error
carrying the code and reason; an absent status or an unknown code yields
an Unexpected error. -/
theorem status_to_result_spec :
    (status_to_result Option.none = Except.error (Error.unexpected "no status")) ∧
    (∀ s : ProtoStatus, ErrorCode.fromI32 s.error_code = some ErrorCode.success →
        status_to_result (some s) = Except.ok ()) ∧
    (∀ (s : ProtoStatus) (code : ErrorCode),
        ErrorCode.fromI32 s.error_code = some code → code ≠ ErrorCode.success →
        status_to_result (some s) = Except.error (Error.server code s.reason)) ∧
    (∀ s : ProtoStatus, ErrorCode.fromI32 s.error_code = Option.none →
        status_to_result (some s)
          = Except.error (Error.unexpected ("unknown error code " ++ toString s.error_code))) ∧
    (∀ st : Option ProtoStatus, status_to_result st = Except.ok () →
        ∃ s, st = some s ∧ s.error_code = 0) := by
  refine ⟨rfl, ?_, ?_, ?_, ?_⟩
  · intro s h
    simp only [status_to_result, h]
  · intro s code h hne
    cases code with
    | success => exact absurd rfl hne
    | unexpectedError => simp only [status_to_result, h]
    | connectFailed => simp only [status_to_result, h]
    | permissionDenied => simp only [status_to_result, h]
    | collectionNotExists => simp only [status_to_result, h]
    | illegalArgument => simp only [status_to_result, h]
  · intro s h
    simp only [status_to_result, h]
  · intro st h
    cases st with
    | none => exact Except.noConfusion h
    | some s =>
      simp only [status_to_result] at h
      cases hc : ErrorCode.fromI32 s.error_code with
      | none => rw [hc] at h; exact Except.noConfusion h
      | some code =>
        rw [hc] at h
        cases code with
        | success => exact ⟨s, rfl, (errorCode_success_iff _).mp hc⟩
        | unexpectedError => exact Except.noConfusion h
        | connectFailed => exact Except.noConfusion h
        | permissionDenied => exact Except.noConfusion h
        | collectionNotExists => exact Except.noConfusion h
        | illegalArgument => exact Except.noConfusion h

/-- Claim C6 witness: concrete statuses — code 0 succeeds, code 1 becomes a
Server error with its reason, code 999 becomes an Unexpected error. -/
theorem status_to_result_spec_witness :
    status_to_result (some { error_code := 0, reason := "" }) = Except.ok () ∧
    status_to_result (some { error_code := 1, reason := "boom" })
      = Except.error (Error.server ErrorCode.unexpectedError "boom") ∧
    status_to_result (some { error_code := 999, reason := "x" })
      = Except.error (Error.unexpected ("unknown error code " ++ toString (999 : Int))) :=
  ⟨status_to_result_spec.2.1 { error_code := 0, reason := "" } (by decide),
   status_to_result_spec.2.2.1 { error_code := 1, reason := "boom" }
     ErrorCode.unexpectedError (by decide) (by decide),
   status_to_result_spec.2.2.2.1 { error_code := 999, reason := "x" } (by decide)⟩

/-- Claim C7: the wire-to-local conversions panic rather than return an
error — a wire FieldData with an unknown numeric type code panics, and a
wire FieldSchema typed VarChar, BinaryVector, or FloatVector whose
type_params lack a parsable max_length or dim entry panics. -/
theorem wire_to_local_unchecked_unwraps :
    (∀ fd : ProtoFieldData, DataType.fromI32 fd.type = Option.none →
        protoFieldDataToLocal fd = Except.error RustPanic.unwrapNone) ∧
    (∀ fs : ProtoFieldSchema, DataType.fromI32 fs.data_type = some DataType.varChar →
        findParseI32 fs.type_params "max_length" = Option.none →
        protoFieldSchemaToLocal fs = Except.error RustPanic.unwrapNone) ∧
    (∀ fs : ProtoFieldSchema, DataType.fromI32 fs.data_type = some DataType.binaryVector →
        findParseI64 fs.type_params "dim" = Option.none →
        protoFieldSchemaToLocal fs = Except.error RustPanic.unwrapNone) ∧
    (∀ fs : ProtoFieldSchema, DataType.fromI32 fs.data_type = some DataType.floatVector →
        findParseI64 fs.type_params "dim" = Option.none →
        protoFieldSchemaToLocal fs = Except.error RustPanic.unwrapNone) := by
  refine ⟨?_, ?_, ?_, ?_⟩
  · intro fd h
    unfold protoFieldDataToLocal
    rw [h]
  · intro fs h1 h2
    unfold protoFieldSchemaToLocal
    rw [h1, h2]
  · intro fs h1 h2
    unfold protoFieldSchemaToLocal
    rw [h1, h2]
  · intro fs h1 h2
    unfold protoFieldSchemaToLocal
    rw [h1, h2]

/-- Claim C7 witness: concrete panicking inputs — a FieldData with type
code 99, and FieldSchemas typed VarChar (21), BinaryVector (100) and
FloatVector (101) with empty type_params. -/
theorem wire_to_local_unchecked_unwraps_witness :
    protoFieldDataToLocal { type := 99, field_name := "f", field_id := 0, field := Option.none }
      = Except.error RustPanic.unwrapNone ∧
    protoFieldSchemaToLocal
        { field_id := 0, name := "v", is_primary_key := false, description := "",
          data_type := 21, type_params := [], index_params := [], auto_id := false,
          state := 0 } = Except.error RustPanic.unwrapNone ∧
    protoFieldSchemaToLocal
        { field_id := 0, name := "b", is_primary_key := false, description := "",
          data_type := 100, type_params := [], index_params := [], auto_id := false,
          state := 0 } = Except.error RustPanic.unwrapNone ∧
    protoFieldSchemaToLocal
        { field_id := 0, name := "fv", is_primary_key := false, description := "",
          data_type := 101, type_params := [], index_params := [], auto_id := false,
          state := 0 } = Except.error RustPanic.unwrapNone :=
  ⟨wire_to_local_unchecked_unwraps.1
     { type := 99, field_name := "f", field_id := 0, field := Option.none } (by decide),
   wire_to_local_unchecked_unwraps.2.1
     { field_id := 0, name := "v", is_primary_key := false, description := "",
       data_type := 21, type_params := [], index_params := [], auto_id := false,
       state := 0 } (by decide) (by decide),
   wire_to_local_unchecked_unwraps.2.2.1
     { field_id := 0, name := "b", is_primary_key := false, description := "",
       data_type := 100, type_params := [], index_params := [], auto_id := false,
       state := 0 } (by decide) (by decide),
   wire_to_local_unchecked_unwraps.2.2.2
     { field_id := 0, name := "fv", is_primary_key := false, description := "",
       data_type := 101, type_params := [], index_params := [], auto_id := false,
       state := 0 } (by decide) (by decide)⟩

/-- Claim C9: a QueryResult built from a wire query response with n
field-data columns contains exactly n FieldData entries, in response
order, each keeping its field name. -/
theorem query_result_preserves_fields :
    ∀ (response : ProtoQueryResults) (qr : QueryResult),
      query_collect response = Except.ok (Except.ok qr) →
      qr.fields_data.length = response.fields_data.length ∧
      ∀ (i : Nat) (hq : i < qr.fields_data.length) (hr : i < response.fields_data.length),
        (qr.fields_data.get ⟨i, hq⟩).field_name
          = (response.fields_data.get ⟨i, hr⟩).field_name := by
  intro response qr h
  unfold query_collect at h
  cases hst : status_to_result response.status with
  | error e =>
    rw [hst] at h
    injection h with h2
    exact Except.noConfusion h2
  | ok u =>
    rw [hst] at h
    cases hm : mapPanic protoFieldDataToLocal response.fields_data with
    | error e => rw [hm] at h; exact Except.noConfusion h
    | ok fds =>
      rw [hm] at h
      injection h with h2
      injection h2 with h3
      subst h3
      constructor
      · exact mapPanic_ok_length protoFieldDataToLocal response.fields_data fds hm
      · intro i hq hr
        exact protoFieldDataToLocal_name _ _
          (mapPanic_ok_get protoFieldDataToLocal response.fields_data fds hm i hr hq)

/-- Claim C9 witness: a concrete two-column response (an Int64 column "a"
and a FloatVector column "b") yields a QueryResult with both columns in
order. -/
theorem query_result_preserves_fields_witness :
    ({ fields_data :=
         [{ data_type := DataType.int64, field_name := "a", field_id := 0,
            field := Option.none },
          { data_type := DataType.floatVector, field_name := "b", field_id := 1,
            field := Option.none }],
       collection_name := "c" } : QueryResult).fields_data.length
      = ({ status := some { error_code := 0, reason := "" },
           fields_data :=
             [{ type := 5, field_name := "a", field_id := 0, field := Option.none },
              { type := 101, field_name := "b", field_id := 1, field := Option.none }],
           collection_name := "c" } : ProtoQueryResults).fields_data.length :=
  (query_result_preserves_fields
    { status := some { error_code := 0, reason := "" },
      fields_data :=
        [{ type := 5, field_name := "a", field_id := 0, field := Option.none },
         { type := 101, field_name := "b", field_id := 1, field := Option.none }],
      collection_name := "c" }
    { fields_data :=
        [{ data_type := DataType.int64, field_name := "a", field_id := 0,
           field := Option.none },
         { data_type := DataType.floatVector, field_name := "b", field_id := 1,
           field := Option.none }],
      collection_name := "c" }
    (by rfl)).1

end Vdb
